import Mathlib

/-!
Verification development for the msgvault release installers:
  * src/public/install.ps1      (Windows PowerShell installer)
  * src/unnamed/part_003        (POSIX shell installer, install.sh)

Strings are modelled as `List Char`.  PowerShell string comparison
(`-eq`, `-ne`, `switch`, `-ieq`) is case-insensitive by default, which we
model by comparing `toLowerStr` images.  The POSIX shell / awk comparisons
(`==` in awk, `!=` in `[ ... ]`) are exact and are modelled by plain
list equality.
-/

/-- Turn a string literal into the `List Char` representation used throughout. -/
def cs (s : String) : List Char := s.toList

/-- Lower-case every character (models .NET `ToLower` / PowerShell
case-insensitive comparison on ASCII data). -/
def toLowerStr (l : List Char) : List Char := l.map Char.toLower

/-- PowerShell case-insensitive string equality (`-eq`, `-ieq`, `switch`). -/
def ciEq (a b : List Char) : Bool := decide (toLowerStr a = toLowerStr b)

/-! ## Checksum-manifest parsing, PowerShell variant
    (install.ps1 lines 163-201, inside Install-Msgvault) -/

/-- install.ps1 line 167: `if ($line -match '^\s*$') { continue }`. -/
def isBlankLine (l : List Char) : Bool := l.all Char.isWhitespace

/-- install.ps1 line 168: `$parts = $line -split '\s+', 2`: split at the
first run of whitespace into at most two parts. -/
def splitWs2 (l : List Char) : List (List Char) :=
  let pre := l.takeWhile (fun c => !c.isWhitespace)
  let post := l.dropWhile (fun c => !c.isWhitespace)
  if post = [] then [pre]
  else [pre, post.dropWhile (fun c => c.isWhitespace)]

/-- Strip the list `p` from the front of `l` when it is there
(one `-replace '^...'` step of install.ps1 lines 173-175). -/
def stripLead (p l : List Char) : List Char :=
  if l.take p.length = p then l.drop p.length else l

/-- install.ps1 lines 173-175: strip a leading `*`, then a leading `./`,
then a leading `.\`, in that order, one occurrence each. -/
def normalizeFilename (l : List Char) : List Char :=
  stripLead ['.', '\\'] (stripLead ['.', '/'] (stripLead ['*'] l))

/-- Does the name still begin with one of the three strippable markers? -/
def hasStripMarker (l : List Char) : Bool :=
  decide (l.take 1 = ['*']) || decide (l.take 2 = ['.', '/'])
    || decide (l.take 2 = ['.', '\\'])

/-- install.ps1 lines 166-179, body of the foreach: for one manifest line,
return the hash field when the normalized filename field equals the expected
archive name (PowerShell `-eq`, case-insensitive), and `none` when the line
is blank, has fewer than two fields, or names another file. -/
def lineMatchHash (l f : List Char) : Option (List Char) :=
  if isBlankLine l then none
  else
    match splitWs2 l with
    | [h, name] => if ciEq (normalizeFilename name) f then some h else none
    | _ => none

/-- install.ps1 lines 165-179: `$matchingLines`, the hashes of all manifest
lines whose normalized filename equals the expected archive name. -/
def matchingLines (manifest : List (List Char)) (f : List Char) :
    List (List Char) :=
  manifest.filterMap (fun l => lineMatchHash l f)

/-- Outcome of the PowerShell checksum verification block.  Every
constructor other than `ok` corresponds to an `exit 1` in install.ps1. -/
inductive VerifyResult where
  | ok : VerifyResult
  | notFound : VerifyResult
  | multiple : VerifyResult
  | mismatch (expected actual : List Char) : VerifyResult
deriving DecidableEq

/-- install.ps1 lines 181-201: zero matches is fatal, more than one match is
fatal, otherwise compare the expected hash with the actual hash.  The code
lowercases the computed hash (`.Hash.ToLower()`), lowercases the expected
hash, and compares with `-ne` (itself case-insensitive); a mismatch prints
the expected hash as written in the manifest and the lowercased actual
hash, which the `mismatch` constructor records. -/
def verifyChecksum (manifest : List (List Char)) (f actual : List Char) :
    VerifyResult :=
  match matchingLines manifest f with
  | [] => .notFound
  | [h] =>
      if toLowerStr actual = toLowerStr h then .ok
      else .mismatch h (toLowerStr actual)
  | _ => .multiple

/-! ## Checksum verification, POSIX shell variant
    (part_003 lines 72-103, verify_checksum) -/

/-- awk `$1` of a line: first whitespace-separated field. -/
def awkField1 (l : List Char) : List Char :=
  (l.dropWhile Char.isWhitespace).takeWhile (fun c => !c.isWhitespace)

/-- awk `$2` of a line: second whitespace-separated field
(empty when the line has fewer than two fields). -/
def awkField2 (l : List Char) : List Char :=
  let afterF1 :=
    ((l.dropWhile Char.isWhitespace).dropWhile (fun c => !c.isWhitespace))
  (afterF1.dropWhile Char.isWhitespace).takeWhile (fun c => !c.isWhitespace)

/-- part_003 line 82, `gsub(/^\*/, "", $2)`: remove one leading `*`.
No `./` or `.\` stripping happens in this variant. -/
def awkStripStar (l : List Char) : List Char :=
  match l with
  | '*' :: r => r
  | _ => l

/-- part_003 line 82: the awk program prints `$1` of the FIRST line whose
star-stripped `$2` equals the filename (exact, case-sensitive match) and
exits; no line matching yields empty output. -/
def bashFindExpected (manifest : List (List Char)) (f : List Char) :
    Option (List Char) :=
  manifest.findSome? (fun l =>
    if awkStripStar (awkField2 l) = f then some (awkField1 l) else none)

/-- Outcome of the POSIX verify_checksum.  The three `skipped*`
constructors correspond to `warn ...; return 0`: the caller continues the
installation.  Only `failed` calls `error`, which exits the script. -/
inductive BashVerifyResult where
  | verified : BashVerifyResult
  | skippedNoFile : BashVerifyResult
  | skippedNoEntry : BashVerifyResult
  | skippedNoTool : BashVerifyResult
  | failed (expected actual : List Char) : BashVerifyResult
deriving DecidableEq

/-- part_003 lines 72-103, verify_checksum: missing checksum file, missing
manifest entry (`[ -z "$expected" ]`) and missing sha256 tool all warn and
return success; the hash comparison `[ "$expected" != "$actual" ]` is
exact (case-sensitive) and on mismatch prints both values and exits. -/
def bashVerifyChecksum (checksumsFileExists : Bool)
    (manifest : List (List Char)) (f : List Char)
    (shaToolAvailable : Bool) (actual : List Char) : BashVerifyResult :=
  if !checksumsFileExists then .skippedNoFile
  else
    match (bashFindExpected manifest f).getD [] with
    | [] => .skippedNoEntry
    | expected =>
        if !shaToolAvailable then .skippedNoTool
        else if expected ≠ actual then .failed expected actual
        else .verified

/-! ## PATH integration (install.ps1 lines 85-105, Add-ToPath) -/

/-- install.ps1 line 89 / 91: `.TrimEnd('\', '/')`, remove every trailing
backslash or forward slash. -/
def trimSlashesEnd (l : List Char) : List Char :=
  (l.reverse.dropWhile (fun c => c = '\\' || c = '/')).reverse

/-- install.ps1 lines 90-92: one PATH entry matches the directory when
their slash-trimmed forms are `-ieq` (case-insensitively equal). -/
def pathEntryMatches (entry dir : List Char) : Bool :=
  decide (toLowerStr (trimSlashesEnd entry) = toLowerStr (trimSlashesEnd dir))

/-- install.ps1 line 90: `$currentPath -split ';'`.  Splitting the empty
list yields one empty entry, as PowerShell does. -/
def splitSemi : List Char → List (List Char)
  | [] => [[]]
  | c :: rest =>
      if c = ';' then [] :: splitSemi rest
      else (c :: (splitSemi rest).headI) :: (splitSemi rest).tail

/-- install.ps1 lines 90-93: is the directory already among the PATH
entries? -/
def inPath (currentPath dir : List Char) : Bool :=
  (splitSemi currentPath).any (fun e => pathEntryMatches e dir)

/-- install.ps1 lines 85-105, Add-ToPath acting on the persisted user PATH
value: when the directory is already present the PATH is returned
unchanged (the function reports `$false`); otherwise
`"$currentPath;$dir"` is persisted. -/
def addToPath (currentPath dir : List Char) : List Char :=
  if inPath currentPath dir then currentPath
  else currentPath ++ ';' :: dir

/-! ## Configuration and architecture detection (install.ps1) -/

/-- install.ps1 lines 13-16, Test-EnvBool: the environment variable's value
(`none` when unset) must `-match '^(1|true|yes)$'`; PowerShell `-match` is
case-insensitive and treats an unset variable as the empty string. -/
def testEnvBool (val : Option (List Char)) : Bool :=
  let v := toLowerStr (val.getD [])
  decide (v = cs "1") || decide (v = cs "true") || decide (v = cs "yes")

/-- install.ps1 lines 18-41, Get-Architecture, on the non-throwing path:
first the PROCESSOR_ARCHITECTURE environment variable (`none` when unset)
is compared with 'ARM64' (PowerShell `-eq`, case-insensitive), then the
.NET OSArchitecture name is dispatched through the `switch` (also
case-insensitive), whose `default` arm returns 'amd64'. -/
def getArchitecture (procArch : Option (List Char)) (osArch : List Char) :
    List Char :=
  if ciEq (procArch.getD []) (cs "ARM64") then cs "arm64"
  else if ciEq osArch (cs "X64") then cs "amd64"
  else if ciEq osArch (cs "X86") then cs "386"
  else if ciEq osArch (cs "Arm64") then cs "arm64"
  else cs "amd64"

/-- install.ps1 lines 77-83, Get-InstallDir: the MSGVAULT_INSTALL_DIR
override when set, else `USERPROFILE\.msgvault\bin`. -/
def getInstallDir (override : Option (List Char)) (userProfile : List Char) :
    List Char :=
  match override with
  | some d => d
  | none => userProfile ++ cs "\\.msgvault\\bin"

/-- install.ps1 line 124: `$version.TrimStart('v')` removes every leading
'v'. -/
def trimStartV (l : List Char) : List Char := l.dropWhile (fun c => c = 'v')

/-- install.ps1 line 125: the expected archive filename. -/
def psArchiveName (version arch : List Char) : List Char :=
  cs "msgvault_" ++ trimStartV version ++ cs "_windows_" ++ arch
    ++ cs ".tar.gz"


/-! ## Whole-run model of Install-Msgvault (install.ps1 lines 107-260) -/

/-- Ordered observable events of a run (used to check that the
skip-checksum warning precedes placement). -/
inductive Event where
  | warnedSkipChecksum : Event
  | placedBinary : Event
deriving DecidableEq

/-- Reasons for the `exit 1` / uncaught-throw paths of Install-Msgvault. -/
inductive FailReason where
  | unsupportedArch : FailReason
  | versionFetch : FailReason
  | downloadFailed : FailReason
  | manifestDownloadFailed : FailReason
  | checksumNotFound : FailReason
  | checksumMultiple : FailReason
  | checksumMismatch (expected actual : List Char) : FailReason
  | tarMissing : FailReason
  | tarFailed : FailReason
  | binaryNotFound : FailReason
deriving DecidableEq

/-- Process outcome: exit code 0, or a fatal abort. -/
inductive Outcome where
  | success : Outcome
  | fatal (r : FailReason) : Outcome
deriving DecidableEq

/-- Environment of one installer run: configuration variables and the
responses of the outside world (network, tar, archive content). -/
structure Env where
  procArch : Option (List Char)
  osArch : List Char
  skipChecksumVar : Option (List Char)
  noModifyPathVar : Option (List Char)
  installDirVar : Option (List Char)
  userProfile : List Char
  latestVersion : Option (List Char)
  installDirExists0 : Bool
  installedBinary0 : Option (List Char)
  userPath0 : List Char
  archiveDownloadOk : Bool
  manifestDownloadOk : Bool
  manifest : List (List Char)
  archiveHash : List Char
  tarAvailable : Bool
  tarExit : Nat
  binaryInArchive : Option (List Char)
deriving DecidableEq

/-- Filesystem / environment state tracked across a run.
`installedBinary` is the content of the file at the destination path
`installDir\msgvault.exe` (`none`: no such file); it is the only thing the
installer ever writes under the install destination. -/
structure St where
  tmpDirExists : Bool
  installDirExists : Bool
  installedBinary : Option (List Char)
  userPath : List Char
  log : List Event
deriving DecidableEq

/-- State at the start of a run, taken from the environment. -/
def initSt (env : Env) : St :=
  { tmpDirExists := false
    installDirExists := env.installDirExists0
    installedBinary := env.installedBinary0
    userPath := env.userPath0
    log := [] }

/-- install.ps1 lines 147-202: the checksum block inside the try.  Returns
a fail reason (each one an `exit 1` in the source) or `none` to continue. -/
def checksumStep (env : Env) (archiveName : List Char) (st : St) :
    Option FailReason × St :=
  if testEnvBool env.skipChecksumVar then
    (none, { st with log := st.log ++ [Event.warnedSkipChecksum] })
  else if !env.manifestDownloadOk then (some .manifestDownloadFailed, st)
  else
    match verifyChecksum env.manifest archiveName env.archiveHash with
    | .ok => (none, st)
    | .notFound => (some .checksumNotFound, st)
    | .multiple => (some .checksumMultiple, st)
    | .mismatch e a => (some (.checksumMismatch e a), st)

/-- install.ps1 lines 141-253: the body of the try block, from the archive
download through placement and PATH integration. -/
def tryBody (env : Env) (archiveName installDir : List Char) (st : St) :
    Outcome × St :=
  if !env.archiveDownloadOk then (.fatal .downloadFailed, st)
  else
    match checksumStep env archiveName st with
    | (some r, st') => (.fatal r, st')
    | (none, st') =>
        if !env.tarAvailable then (.fatal .tarMissing, st')
        else if env.tarExit ≠ 0 then (.fatal .tarFailed, st')
        else
          match env.binaryInArchive with
          | none => (.fatal .binaryNotFound, st')
          | some content =>
              let st3 := { st' with
                installedBinary := some content
                log := st'.log ++ [Event.placedBinary] }
              let st4 :=
                if testEnvBool env.noModifyPathVar then st3
                else { st3 with
                  userPath := addToPath st3.userPath installDir }
              (.success, st4)

/-- install.ps1 lines 254-259: the finally block removes the temporary
directory on every exit path of the try (PowerShell runs `finally` even
when the try exits via `exit` or an uncaught throw). -/
def finallyCleanup (r : Outcome × St) : Outcome × St :=
  (r.1, { r.2 with tmpDirExists := false })

/-- install.ps1 lines 107-260, Install-Msgvault: architecture check, version
resolution, install-directory creation (BEFORE any download), temporary
directory creation, then the try body wrapped by the cleanup finally.
The two exits before the temporary directory is created leave the state
with no temporary directory. -/
def installMsgvault (env : Env) : Outcome × St :=
  let st0 := initSt env
  let arch := getArchitecture env.procArch env.osArch
  if ciEq arch (cs "386") then (.fatal .unsupportedArch, st0)
  else
    match env.latestVersion with
    | none => (.fatal .versionFetch, st0)
    | some v =>
        let archiveName := psArchiveName v arch
        let installDir := getInstallDir env.installDirVar env.userProfile
        let st1 := { st0 with installDirExists := true }
        let st2 := { st1 with tmpDirExists := true }
        finallyCleanup (tryBody env archiveName installDir st2)

/-- In the event log `l`, does `b` occur strictly after the first
occurrence of `a`? -/
def eventBefore (l : List Event) (a b : Event) : Bool :=
  ((l.dropWhile (fun e => !decide (e = a))).drop 1).any
    (fun e => decide (e = b))

/-! ## Whole-run model of install_from_release (part_003 lines 106-160)
    wrapped by main (lines 163-199) -/

/-- Environment of one POSIX installer run. -/
structure ShEnv where
  os : List Char
  arch : List Char
  versionTag : Option (List Char)
  archiveDownloadOk : Bool
  manifestDownloadOk : Bool
  manifest : List (List Char)
  shaToolAvailable : Bool
  actualHash : List Char
  tarOk : Bool
  binaryAtTop : Bool
  installedBinary0 : Option (List Char) := none
  binaryContent : List Char := cs "bin"
deriving DecidableEq

/-- State tracked for the POSIX run.  `installedBinary` is the content of
the file at the destination path `$install_dir/msgvault` (`none`: no such
file); it is the only thing install_from_release ever writes under the
install destination, by `mv` at part_003 lines 143-148. -/
structure ShSt where
  tmpDirExists : Bool
  binaryInstalled : Bool
  warnedUnverified : Bool
  installedBinary : Option (List Char)
deriving DecidableEq

/-- Outcome of the POSIX run: `main` exits 0 on success and calls `error`
(exit 1) when install_from_release returns nonzero or any `error` fires. -/
inductive ShOutcome where
  | success : ShOutcome
  | failed : ShOutcome
deriving DecidableEq

/-- part_003 line 121: `${BINARY_NAME}_${version#v}_${os}_${arch}.tar.gz`
(`#v` strips one leading 'v'). -/
def shFilename (version os arch : List Char) : List Char :=
  cs "msgvault_" ++ stripLead ['v'] version ++ cs "_" ++ os ++ cs "_"
    ++ arch ++ cs ".tar.gz"

/-- part_003 lines 106-160, install_from_release, before the EXIT trap
fires: version resolution, download, the checksum branch (lines 133-137:
when the SHA256SUMS download fails the script only WARNS and continues),
extraction, and placement of the binary. -/
def shInstallBody (e : ShEnv) : ShOutcome × ShSt :=
  let st0 : ShSt :=
    { tmpDirExists := false, binaryInstalled := false
      warnedUnverified := false, installedBinary := e.installedBinary0 }
  match e.versionTag with
  | none => (.failed, st0)
  | some v =>
      let fname := shFilename v e.os e.arch
      let st1 := { st0 with tmpDirExists := true }
      if !e.archiveDownloadOk then (.failed, st1)
      else
        let verdict :=
          if e.manifestDownloadOk then
            bashVerifyChecksum true e.manifest fname e.shaToolAvailable
              e.actualHash
          else .skippedNoFile
        let st2 :=
          if e.manifestDownloadOk then st1
          else { st1 with warnedUnverified := true }
        match verdict with
        | .failed _ _ => (.failed, st2)
        | _ =>
            if !e.tarOk then (.failed, st2)
            else if e.binaryAtTop then
              (.success, { st2 with
                binaryInstalled := true
                installedBinary := some e.binaryContent })
            else (.failed, st2)

/-- part_003 line 125: `trap "rm -rf $tmpdir" EXIT` — the temporary
directory is removed when the script exits, on every path. -/
def shRunTrap (r : ShOutcome × ShSt) : ShOutcome × ShSt :=
  (r.1, { r.2 with tmpDirExists := false })

/-- One whole POSIX installer run, EXIT trap included. -/
def shInstall (e : ShEnv) : ShOutcome × ShSt :=
  shRunTrap (shInstallBody e)

/-! ## Concrete run environments used in closed theorems -/

/-- A Windows run against a fresh machine (no install directory yet) in
which the archive download fails. -/
def psEnvC6 : Env :=
  { procArch := none, osArch := cs "X64", skipChecksumVar := none
    noModifyPathVar := none, installDirVar := none
    userProfile := cs "C:\\Users\\u"
    latestVersion := some (cs "v1.2.0")
    installDirExists0 := false, installedBinary0 := none
    userPath0 := cs "C:\\w"
    archiveDownloadOk := false, manifestDownloadOk := true
    manifest := [], archiveHash := cs "aa"
    tarAvailable := true, tarExit := 0
    binaryInArchive := some (cs "BIN") }

/-- A POSIX run against a machine with a previously installed binary at
the destination, in which the archive download fails. -/
def shEnvC6 : ShEnv :=
  { os := cs "linux", arch := cs "amd64"
    versionTag := some (cs "v1.2.0"), archiveDownloadOk := false
    manifestDownloadOk := true, manifest := []
    shaToolAvailable := true, actualHash := cs "aa"
    tarOk := true, binaryAtTop := true
    installedBinary0 := some (cs "OLDBIN") }

/-- A Windows run in which the archive downloads but the SHA256SUMS
manifest download fails, with no skip-checksum opt-out set. -/
def psEnvManifestDown : Env :=
  { psEnvC6 with
    archiveDownloadOk := true
    manifestDownloadOk := false
    installDirExists0 := true }

/-- A Windows run with the skip-checksum opt-out set and a failing
manifest download; everything else succeeds. -/
def psEnvSkip : Env :=
  { psEnvC6 with
    archiveDownloadOk := true
    manifestDownloadOk := false
    skipChecksumVar := some (cs "1") }

/-! ## Helper lemmas -/

theorem stripLead_of_take {p l : List Char} (h : l.take p.length = p) :
    stripLead p l = l.drop p.length := by
  unfold stripLead
  simp [h]

theorem stripLead_of_ne {p l : List Char} (h : l.take p.length ≠ p) :
    stripLead p l = l := by
  unfold stripLead
  simp [h]

theorem normalize_fixed {l : List Char} (h : hasStripMarker l = false) :
    normalizeFilename l = l := by
  unfold hasStripMarker at h
  simp only [Bool.or_eq_false_iff, decide_eq_false_iff_not] at h
  unfold normalizeFilename stripLead
  simp [h.1.1, h.1.2, h.2]

theorem splitSemi_cons_semi (l : List Char) :
    splitSemi (';' :: l) = [] :: splitSemi l := by
  simp [splitSemi]

theorem splitSemi_cons_ne {c : Char} (h : c ≠ ';') (l : List Char) :
    splitSemi (c :: l) =
      (c :: (splitSemi l).headI) :: (splitSemi l).tail := by
  simp [splitSemi, h]

theorem splitSemi_ne_nil (l : List Char) : splitSemi l ≠ [] := by
  cases l with
  | nil => simp [splitSemi]
  | cons c rest =>
      by_cases h : c = ';'
      · subst h; rw [splitSemi_cons_semi]; simp
      · rw [splitSemi_cons_ne h]; simp

theorem splitSemi_append (xs ys : List Char) :
    splitSemi (xs ++ ';' :: ys) = splitSemi xs ++ splitSemi ys := by
  induction xs with
  | nil => simp [splitSemi]
  | cons c xs ih =>
      rw [List.cons_append]
      by_cases h : c = ';'
      · subst h
        rw [splitSemi_cons_semi, splitSemi_cons_semi, ih, List.cons_append]
      · rw [splitSemi_cons_ne h, splitSemi_cons_ne h, ih]
        cases hsx : splitSemi xs with
        | nil => exact absurd hsx (splitSemi_ne_nil xs)
        | cons a t => simp

theorem splitSemi_of_no_semi {l : List Char} (h : ';' ∉ l) :
    splitSemi l = [l] := by
  induction l with
  | nil => rfl
  | cons c rest ih =>
      have hc : c ≠ ';' := by
        rintro rfl
        exact h (List.mem_cons_self _ _)
      have hr : ';' ∉ rest := fun m => h (List.mem_cons_of_mem c m)
      rw [splitSemi_cons_ne hc, ih hr]
      simp

theorem inPath_append_self (p d : List Char) (hd : ';' ∉ d) :
    inPath (p ++ ';' :: d) d = true := by
  unfold inPath
  rw [splitSemi_append, splitSemi_of_no_semi hd, List.any_append]
  simp [pathEntryMatches]

theorem addToPath_of_inPath {q d : List Char} (h : inPath q d = true) :
    addToPath q d = q := by
  simp [addToPath, h]

/-! ## Claim C1 -/

/-- C1 (amended to the Windows installer): with verification enabled,
`verifyChecksum` succeeds exactly when the manifest has a single entry
whose normalized filename matches the expected archive name and the
computed hash equals that entry's hash (case-insensitively, both sides
being lowercased by the code before the comparison); a differing hash
yields the fatal `mismatch` result, an empty match set yields the fatal
`notFound` result, and two or more matches yield the fatal `multiple`
result, regardless of hash content.  Each non-`ok` result is an `exit 1`
in install.ps1 (lines 181-201). -/
theorem verifyChecksum_cases (ls : List (List Char)) (f a : List Char) :
    (∀ h, matchingLines ls f = [h] →
      (verifyChecksum ls f a = .ok ↔ toLowerStr a = toLowerStr h))
    ∧ (matchingLines ls f = [] → verifyChecksum ls f a = .notFound)
    ∧ (∀ h₁ h₂ t, matchingLines ls f = h₁ :: h₂ :: t →
        verifyChecksum ls f a = .multiple) := by
  refine ⟨?_, ?_, ?_⟩
  · intro h hm
    unfold verifyChecksum
    rw [hm]
    by_cases hc : toLowerStr a = toLowerStr h <;> simp [hc]
  · intro hm
    unfold verifyChecksum
    rw [hm]
  · intro h₁ h₂ t hm
    unfold verifyChecksum
    rw [hm]

/-- C1 witness: a one-entry manifest whose hash matches the downloaded
file verifies successfully. -/
theorem verifyChecksum_cases_witness :
    verifyChecksum
      [cs "a1b2c3d4  msgvault_1.2.0_windows_amd64.tar.gz"]
      (cs "msgvault_1.2.0_windows_amd64.tar.gz") (cs "a1b2c3d4") = .ok :=
  ((verifyChecksum_cases _ _ _).1 (cs "a1b2c3d4") (by decide)).mpr (by decide)

/-- C1 counterexample: the claim quantifies over both installers, but in
the POSIX installer (part_003, verify_checksum lines 83-86) a manifest
with ZERO entries matching the expected filename only warns
(`skippedNoEntry`, `return 0`) instead of failing fatally, and the whole
run then continues to a successful installation. -/
theorem bash_zero_match_not_fatal :
    bashVerifyChecksum true [cs "aaaa  other.tar.gz"]
      (cs "msgvault_1.2.0_linux_amd64.tar.gz") true (cs "bbbb")
      = .skippedNoEntry
    ∧ (shInstall
        { os := cs "linux", arch := cs "amd64"
          versionTag := some (cs "v1.2.0"), archiveDownloadOk := true
          manifestDownloadOk := true, manifest := [cs "aaaa  other.tar.gz"]
          shaToolAvailable := true, actualHash := cs "bbbb"
          tarOk := true, binaryAtTop := true }).1 = .success := by
  exact ⟨by decide, by decide⟩

/-! ## Claim C3 -/

/-- C3 (amended to the Windows installer): the expected/actual hash
comparison is case-insensitive — hex strings differing only in letter
case verify successfully — and a true mismatch produces the fatal
`mismatch` result carrying both the expected hash (as written in the
manifest) and the actual hash (lowercased), exactly the two values the
installer prints before `exit 1` (install.ps1 lines 195-199). -/
theorem checksum_compare_case_insensitive (ls : List (List Char))
    (f a h : List Char) (hone : matchingLines ls f = [h]) :
    (toLowerStr a = toLowerStr h → verifyChecksum ls f a = .ok)
    ∧ (toLowerStr a ≠ toLowerStr h →
        verifyChecksum ls f a = .mismatch h (toLowerStr a)) := by
  unfold verifyChecksum
  rw [hone]
  constructor
  · intro hc; simp [hc]
  · intro hc; simp [hc]

/-- C3 witness: an upper-case manifest hash verifies against the
lower-case computed hash. -/
theorem checksum_compare_case_insensitive_witness :
    verifyChecksum [cs "ABCD  f.tar.gz"] (cs "f.tar.gz") (cs "abcd")
      = .ok :=
  (checksum_compare_case_insensitive [cs "ABCD  f.tar.gz"]
    (cs "f.tar.gz") (cs "abcd") (cs "ABCD") (by decide)).1 (by decide)

/-- C3 counterexample: the claim quantifies over both installers, but the
POSIX installer (part_003 line 98) compares with `!=`, which is
case-sensitive: an upper-case manifest hash against the lower-case
computed hash is a fatal mismatch there, not a success. -/
theorem bash_compare_case_sensitive :
    bashVerifyChecksum true [cs "ABCD  f.tar.gz"] (cs "f.tar.gz") true
      (cs "abcd") = .failed (cs "ABCD") (cs "abcd") := by decide

/-! ## Claim C4 -/

/-- C4 (amended to the Windows installer): a manifest line's filename
field is normalized by stripping a leading `*`, a leading `./` and a
leading `.\` before comparison — in particular the scenario line with the
`*`-prefixed archive name matches the expected filename — and blank lines
or lines with fewer than two whitespace-separated fields are skipped,
never errors (install.ps1 lines 165-179). -/
theorem manifest_line_normalization :
    matchingLines [cs "a1b2c3  *msgvault_1.2.0_linux_amd64.tar.gz"]
      (cs "msgvault_1.2.0_linux_amd64.tar.gz") = [cs "a1b2c3"]
    ∧ (∀ l f : List Char, isBlankLine l = true → lineMatchHash l f = none)
    ∧ (∀ l f : List Char, (splitWs2 l).length < 2 →
        lineMatchHash l f = none)
    ∧ (∀ s : List Char, hasStripMarker s = false →
        normalizeFilename ('*' :: s) = s)
    ∧ (∀ s : List Char, hasStripMarker s = false →
        normalizeFilename ('.' :: '/' :: s) = s)
    ∧ (∀ s : List Char, normalizeFilename ('.' :: '\\' :: s) = s) := by
  refine ⟨by decide, ?_, ?_, ?_, ?_, ?_⟩
  · intro l f hb
    unfold lineMatchHash
    simp [hb]
  · intro l f hlen
    unfold lineMatchHash
    by_cases hb : isBlankLine l
    · simp [hb]
    · simp only [hb, Bool.false_eq_true, if_false]
      cases hs : splitWs2 l with
      | nil => simp
      | cons a t =>
          cases t with
          | nil => simp
          | cons b t2 =>
              cases t2 with
              | nil => rw [hs] at hlen; simp at hlen
              | cons c t3 => simp
  · intro s hm
    unfold hasStripMarker at hm
    simp only [Bool.or_eq_false_iff, decide_eq_false_iff_not] at hm
    unfold normalizeFilename stripLead
    simp [hm.1.2, hm.2]
  · intro s hm
    unfold hasStripMarker at hm
    simp only [Bool.or_eq_false_iff, decide_eq_false_iff_not] at hm
    unfold normalizeFilename stripLead
    simp [hm.1.1, hm.1.2, hm.2]
  · intro s
    unfold normalizeFilename stripLead
    simp

/-- C4 witness: a whitespace-only line and a one-field line are skipped,
and stripping the `*` marker from a marker-free name yields that name. -/
theorem manifest_line_normalization_witness :
    lineMatchHash (cs "   ") (cs "f.tar.gz") = none
    ∧ lineMatchHash (cs "deadbeef") (cs "f.tar.gz") = none
    ∧ normalizeFilename ('*' :: cs "f.tar.gz") = cs "f.tar.gz" :=
  ⟨manifest_line_normalization.2.1 (cs "   ") (cs "f.tar.gz") (by decide),
   manifest_line_normalization.2.2.1 (cs "deadbeef") (cs "f.tar.gz")
     (by decide),
   manifest_line_normalization.2.2.2.1 (cs "f.tar.gz") (by decide)⟩

/-- C4 counterexample: the claim quantifies over every manifest line of
both installers, but the POSIX installer (part_003 line 82) strips only a
leading `*`: a line whose filename field is `./`-prefixed does NOT match
the expected filename there, so verification is skipped with a warning
instead of using that entry. -/
theorem bash_no_dotslash_strip :
    bashVerifyChecksum true
      [cs "a1b2c3  ./msgvault_1.2.0_linux_amd64.tar.gz"]
      (cs "msgvault_1.2.0_linux_amd64.tar.gz") true (cs "a1b2c3")
      = .skippedNoEntry := by decide

/-! ## Claim C9 -/

/-- C9 (amended): normalization is idempotent on every filename whose
once-normalized form no longer begins with `*`, `./` or `.\`; in general
one application strips at most one occurrence of each marker, so a name
such as `**f` needs two passes and the unrestricted claim fails. -/
theorem normalizeFilename_idem (l : List Char)
    (h : hasStripMarker (normalizeFilename l) = false) :
    normalizeFilename (normalizeFilename l) = normalizeFilename l :=
  normalize_fixed h

/-- C9 witness: a `*`-prefixed archive name normalizes to a marker-free
name, on which normalization is the identity. -/
theorem normalizeFilename_idem_witness :
    normalizeFilename (normalizeFilename (cs "*msgvault.tar.gz"))
      = normalizeFilename (cs "*msgvault.tar.gz") :=
  normalizeFilename_idem (cs "*msgvault.tar.gz") (by decide)

/-- C9 counterexample: `**msgvault.tar.gz` normalizes to
`*msgvault.tar.gz`, which normalizes again to `msgvault.tar.gz`: applying
the normalization to a name it has already produced changes it, so the
claim as stated (for every filename) is false. -/
theorem normalizeFilename_not_idem :
    normalizeFilename (normalizeFilename (cs "**msgvault.tar.gz"))
      ≠ normalizeFilename (cs "**msgvault.tar.gz") := by decide

/-! ## Claim C8 -/

/-- C8 (amended): for every persisted PATH value and every install
directory containing no `;` (the PATH separator, on which Add-ToPath
splits the persisted value), the PATH-integration step is idempotent:
after one run the directory is present under the case-insensitive,
trailing-separator-insensitive comparison, so a second run appends
nothing.  A directory name containing `;` escapes the membership check
and is re-appended on every run, so the unrestricted claim fails. -/
theorem addToPath_idempotent (p d : List Char) (hd : ';' ∉ d) :
    inPath (addToPath p d) d = true
    ∧ addToPath (addToPath p d) d = addToPath p d := by
  have h1 : inPath (addToPath p d) d = true := by
    by_cases h : inPath p d = true
    · rw [addToPath_of_inPath h]; exact h
    · have happ : addToPath p d = p ++ ';' :: d := by
        simp [addToPath, h]
      rw [happ]
      exact inPath_append_self p d hd
  exact ⟨h1, addToPath_of_inPath h1⟩

/-- C8 witness: adding the default install directory twice to a PATH that
lacks it persists it exactly once. -/
theorem addToPath_idempotent_witness :
    inPath (addToPath (cs "C:\\old") (cs "C:\\u\\.msgvault\\bin"))
      (cs "C:\\u\\.msgvault\\bin") = true
    ∧ addToPath (addToPath (cs "C:\\old") (cs "C:\\u\\.msgvault\\bin"))
        (cs "C:\\u\\.msgvault\\bin")
      = addToPath (cs "C:\\old") (cs "C:\\u\\.msgvault\\bin") :=
  addToPath_idempotent (cs "C:\\old") (cs "C:\\u\\.msgvault\\bin")
    (by decide)

/-- C8 counterexample: for the (legal on Windows) directory name `a;a`,
running Add-ToPath twice appends the directory twice — the split-on-`;`
membership check can never equal a name that itself contains `;` — so the
claim as stated (for every install directory) is false. -/
theorem addToPath_not_idempotent :
    addToPath (addToPath [] (cs "a;a")) (cs "a;a")
      ≠ addToPath [] (cs "a;a") := by decide

/-! ## Lemmas about the Install-Msgvault run model -/

theorem checksumStep_installedBinary (env : Env) (an : List Char)
    (st : St) :
    ((checksumStep env an st).2).installedBinary = st.installedBinary := by
  unfold checksumStep
  split
  · rfl
  · split
    · rfl
    · split <;> rfl

theorem checksumStep_manifest_fail (env : Env) (an : List Char) (st : St)
    (hskip : testEnvBool env.skipChecksumVar = false)
    (hman : env.manifestDownloadOk = false) :
    checksumStep env an st = (some .manifestDownloadFailed, st) := by
  unfold checksumStep
  rw [hskip, hman]
  simp

theorem checksumStep_no_archFail (env : Env) (an : List Char) (st : St)
    (r : FailReason) (st' : St)
    (h : checksumStep env an st = (some r, st')) :
    r ≠ .unsupportedArch := by
  intro hr
  subst hr
  unfold checksumStep at h
  split at h
  · simp at h
  · split at h
    · simp at h
    · split at h <;> simp at h

theorem tryBody_success_or_preserves (env : Env) (an dir : List Char)
    (st : St) :
    (tryBody env an dir st).1 = .success
    ∨ ((tryBody env an dir st).2).installedBinary = st.installedBinary := by
  unfold tryBody
  split
  · exact Or.inr rfl
  · split
    next r st2 heq =>
        right
        have hp := checksumStep_installedBinary env an st
        rw [heq] at hp
        exact hp
    next st2 heq =>
        have hp := checksumStep_installedBinary env an st
        rw [heq] at hp
        split
        · exact Or.inr hp
        · split
          · exact Or.inr hp
          · split
            · exact Or.inr hp
            · exact Or.inl rfl

theorem tryBody_no_archFail (env : Env) (an dir : List Char) (st : St) :
    (tryBody env an dir st).1 ≠ .fatal .unsupportedArch := by
  unfold tryBody
  split
  · simp
  · split
    next r st2 heq =>
        have hr := checksumStep_no_archFail env an st r st2 heq
        simp [hr]
    next st2 heq =>
        split
        · simp
        · split
          · simp
          · split
            · simp
            · simp

theorem tryBody_manifest_fail (env : Env) (an dir : List Char) (st : St)
    (hskip : testEnvBool env.skipChecksumVar = false)
    (hman : env.manifestDownloadOk = false) :
    tryBody env an dir st = (.fatal .downloadFailed, st)
    ∨ tryBody env an dir st = (.fatal .manifestDownloadFailed, st) := by
  unfold tryBody
  by_cases hdl : env.archiveDownloadOk = true
  · right
    rw [checksumStep_manifest_fail env an st hskip hman]
    simp [hdl]
  · left
    simp only [Bool.not_eq_true] at hdl
    rw [hdl]
    simp

theorem shInstallBody_success_or_preserves (e : ShEnv) :
    (shInstallBody e).1 = ShOutcome.success
    ∨ ((shInstallBody e).2).installedBinary = e.installedBinary0 := by
  simp only [shInstallBody]
  split
  · exact Or.inr rfl
  · split
    · exact Or.inr rfl
    · split
      · exact Or.inr (by split <;> rfl)
      · split
        · exact Or.inr (by split <;> rfl)
        · split
          · exact Or.inl rfl
          · exact Or.inr (by split <;> rfl)

theorem shInstall_success_or_preserves (e : ShEnv) :
    (shInstall e).1 = ShOutcome.success
    ∨ ((shInstall e).2).installedBinary = e.installedBinary0 :=
  shInstallBody_success_or_preserves e

/-! ## Claim C5 -/

/-- C5: on every modelled exit path of either installer — success or any
fatal error — the run-scoped temporary directory has been removed by the
time the run ends: install.ps1 wraps the whole download-through-placement
sequence in try/finally whose finally removes the directory (and the two
aborts that precede its creation never create it), and part_003 installs
an EXIT trap doing `rm -rf` immediately after `mktemp -d`. -/
theorem tmpdir_removed_every_path :
    (∀ env : Env, ((installMsgvault env).2).tmpDirExists = false)
    ∧ (∀ e : ShEnv, ((shInstall e).2).tmpDirExists = false) := by
  constructor
  · intro env
    simp only [installMsgvault]
    split
    · rfl
    · split
      · rfl
      · rfl
  · intro e
    rfl

/-! ## Claim C6 -/

/-- C6 (amended): in either installer, a run that fails at any step before
placement leaves the CONTENTS of the install destination untouched — the
binary at the destination path is neither created, removed nor modified —
but the installer creates the (empty) install directory itself at startup
when it is absent (install.ps1 lines 132-135 and part_003 lines 39-46,
before any download), so the claim that no directory is created by a
failed run is false. -/
theorem failed_run_preserves_install_contents :
    (∀ env : Env, (installMsgvault env).1 ≠ .success →
        ((installMsgvault env).2).installedBinary = env.installedBinary0)
    ∧ (∀ e : ShEnv, (shInstall e).1 ≠ .success →
        ((shInstall e).2).installedBinary = e.installedBinary0) := by
  constructor
  · intro env hfail
    have key : (installMsgvault env).1 = .success
        ∨ ((installMsgvault env).2).installedBinary
            = env.installedBinary0 := by
      simp only [installMsgvault]
      split
      · exact Or.inr rfl
      · split
        · exact Or.inr rfl
        · rcases tryBody_success_or_preserves env _ _ _ with h | h
          · exact Or.inl h
          · exact Or.inr h
    cases key with
    | inl h => exact absurd h hfail
    | inr h => exact h
  · intro e hfail
    cases shInstall_success_or_preserves e with
    | inl h => exact absurd h hfail
    | inr h => exact h

/-- C6 witness: in the concrete failing runs `psEnvC6` and `shEnvC6`
(archive download fails; `shEnvC6` starts with a previously installed
binary at the destination) the destination binary is unchanged. -/
theorem failed_run_preserves_install_contents_witness :
    ((installMsgvault psEnvC6).2).installedBinary
      = psEnvC6.installedBinary0
    ∧ ((shInstall shEnvC6).2).installedBinary = shEnvC6.installedBinary0 :=
  ⟨failed_run_preserves_install_contents.1 psEnvC6 (by decide),
   failed_run_preserves_install_contents.2 shEnvC6 (by decide)⟩

/-- C6 counterexample: the run `psEnvC6` fails at the download step, long
before placement, yet it creates the previously absent install directory
— the install destination is not left untouched by the failed run. -/
theorem failed_run_creates_install_dir :
    (installMsgvault psEnvC6).1 = .fatal .downloadFailed
    ∧ psEnvC6.installDirExists0 = false
    ∧ ((installMsgvault psEnvC6).2).installDirExists = true := by decide

/-! ## Claim C2 -/

/-- C2 (amended to the Windows installer): whenever the skip-checksum
opt-out is not set and the checksum-manifest download fails, the run
aborts fatally at or before the manifest-download step — never reaching
extraction or placement, and never touching the destination binary
(install.ps1 lines 155-161, `exit 1` inside the catch). -/
theorem manifest_download_fail_closed (env : Env)
    (hskip : testEnvBool env.skipChecksumVar = false)
    (hman : env.manifestDownloadOk = false) :
    (installMsgvault env).1 ≠ .success
    ∧ ((installMsgvault env).2).installedBinary = env.installedBinary0
    ∧ ∃ r, (installMsgvault env).1 = .fatal r
        ∧ (r = .unsupportedArch ∨ r = .versionFetch ∨ r = .downloadFailed
            ∨ r = .manifestDownloadFailed) := by
  simp only [installMsgvault]
  split
  · exact ⟨by simp, rfl, ⟨.unsupportedArch, rfl, Or.inl rfl⟩⟩
  · split
    · exact ⟨by simp, rfl, ⟨.versionFetch, rfl, Or.inr (Or.inl rfl)⟩⟩
    · rcases tryBody_manifest_fail env _ _ _ hskip hman with h | h
      · rw [h]
        exact ⟨by simp [finallyCleanup], rfl,
          ⟨.downloadFailed, rfl, Or.inr (Or.inr (Or.inl rfl))⟩⟩
      · rw [h]
        exact ⟨by simp [finallyCleanup], rfl,
          ⟨.manifestDownloadFailed, rfl, Or.inr (Or.inr (Or.inr rfl))⟩⟩

/-- C2 witness: the concrete run `psEnvManifestDown` (manifest download
fails, opt-out unset) aborts with the manifest-download fatal error and
leaves the destination binary unchanged. -/
theorem manifest_download_fail_closed_witness :
    (installMsgvault psEnvManifestDown).1 ≠ .success
    ∧ ((installMsgvault psEnvManifestDown).2).installedBinary
        = psEnvManifestDown.installedBinary0
    ∧ ∃ r, (installMsgvault psEnvManifestDown).1 = .fatal r
        ∧ (r = .unsupportedArch ∨ r = .versionFetch ∨ r = .downloadFailed
            ∨ r = .manifestDownloadFailed) :=
  manifest_download_fail_closed psEnvManifestDown (by decide) (by decide)

/-- C2 counterexample: the claim quantifies over every run, but a POSIX
installer run whose SHA256SUMS download fails (part_003 lines 133-137)
only WARNS and continues: it extracts, places the binary and succeeds,
proceeding unverified. -/
theorem bash_manifest_failure_proceeds :
    (shInstall
      { os := cs "linux", arch := cs "amd64"
        versionTag := some (cs "v1.2.0"), archiveDownloadOk := true
        manifestDownloadOk := false, manifest := []
        shaToolAvailable := true, actualHash := cs "aa"
        tarOk := true, binaryAtTop := true }).1 = .success
    ∧ (shInstall
      { os := cs "linux", arch := cs "amd64"
        versionTag := some (cs "v1.2.0"), archiveDownloadOk := true
        manifestDownloadOk := false, manifest := []
        shaToolAvailable := true, actualHash := cs "aa"
        tarOk := true, binaryAtTop := true }).2.binaryInstalled = true
    ∧ (shInstall
      { os := cs "linux", arch := cs "amd64"
        versionTag := some (cs "v1.2.0"), archiveDownloadOk := true
        manifestDownloadOk := false, manifest := []
        shaToolAvailable := true, actualHash := cs "aa"
        tarOk := true, binaryAtTop := true }).2.warnedUnverified = true := by
  exact ⟨by decide, by decide, by decide⟩

/-! ## Claim C7 -/

/-- C7: when the skip-checksum toggle is set, no checksum verification is
performed — the run's result does not depend on the manifest, on whether
the manifest download succeeds, or on the archive hash — the run proceeds
through extraction to placement of the binary, and the visible
bypass warning is emitted before placement (install.ps1 lines 151-152,
204-231). -/
theorem skip_checksum_proceeds (env : Env) (v content : List Char)
    (hskip : testEnvBool env.skipChecksumVar = true)
    (harch : ciEq (getArchitecture env.procArch env.osArch) (cs "386")
      = false)
    (hv : env.latestVersion = some v)
    (hdl : env.archiveDownloadOk = true)
    (htar : env.tarAvailable = true)
    (htz : env.tarExit = 0)
    (hbin : env.binaryInArchive = some content) :
    (installMsgvault env).1 = .success
    ∧ ((installMsgvault env).2).installedBinary = some content
    ∧ eventBefore ((installMsgvault env).2).log .warnedSkipChecksum
        .placedBinary = true
    ∧ ∀ m b h2, installMsgvault
        { env with
          manifest := m
          manifestDownloadOk := b
          archiveHash := h2 } = installMsgvault env := by
  rcases env with ⟨pa, oa, skv, nmv, idv, up, lv, ide0, ib0, up0, adl, mdl,
    man, ah, tav, te, bia⟩
  dsimp only at hskip harch hv hdl htar htz hbin
  subst hv
  subst hdl
  subst htar
  subst htz
  subst hbin
  have hrun : ∀ (man2 : List (List Char)) (mdl2 : Bool) (ah2 : List Char),
      installMsgvault ⟨pa, oa, skv, nmv, idv, up, some v, ide0, ib0, up0,
        true, mdl2, man2, ah2, true, 0, some content⟩
      = (.success,
          { tmpDirExists := false
            installDirExists := true
            installedBinary := some content
            userPath := if testEnvBool nmv then up0
              else addToPath up0 (getInstallDir idv up)
            log := [Event.warnedSkipChecksum, Event.placedBinary] }) := by
    intro man2 mdl2 ah2
    simp only [installMsgvault, initSt, tryBody, checksumStep,
      finallyCleanup, harch, hskip]
    by_cases h : testEnvBool nmv = true <;> simp [h]
  refine ⟨?_, ?_, ?_, ?_⟩
  · rw [hrun man mdl ah]
  · rw [hrun man mdl ah]
  · rw [hrun man mdl ah]
    rfl
  · intro m b h2
    exact (hrun m b h2).trans (hrun man mdl ah).symm

/-- C7 witness: the concrete run `psEnvSkip` (opt-out set, manifest
download failing) succeeds, places the binary, and warns before
placement. -/
theorem skip_checksum_proceeds_witness :
    (installMsgvault psEnvSkip).1 = .success
    ∧ ((installMsgvault psEnvSkip).2).installedBinary = some (cs "BIN")
    ∧ eventBefore ((installMsgvault psEnvSkip).2).log .warnedSkipChecksum
        .placedBinary = true :=
  have h := skip_checksum_proceeds psEnvSkip (cs "v1.2.0") (cs "BIN")
    (by decide) (by decide) (by decide) (by decide) (by decide) (by decide)
    (by decide)
  ⟨h.1, h.2.1, h.2.2.1⟩

/-! ## Claim C10 -/

theorem getArchitecture_mem (pa : Option (List Char)) (oa : List Char) :
    getArchitecture pa oa = cs "arm64" ∨ getArchitecture pa oa = cs "amd64"
      ∨ getArchitecture pa oa = cs "386" := by
  unfold getArchitecture
  split_ifs <;>
    first
      | exact Or.inl rfl
      | exact Or.inr (Or.inl rfl)
      | exact Or.inr (Or.inr rfl)

/-- C10: Get-Architecture is total and never aborts: for every reported
PROCESSOR_ARCHITECTURE value and every .NET OSArchitecture name it
returns one of 'arm64', 'amd64', '386'; any name not matched by the
enumerated switch cases falls through to 'amd64' (install.ps1 line 31);
and Install-Msgvault raises its unsupported-architecture fatal error
exactly when the result is '386' (install.ps1 lines 114-119). -/
theorem getArchitecture_total (pa : Option (List Char)) (oa : List Char) :
    (getArchitecture pa oa = cs "arm64" ∨ getArchitecture pa oa = cs "amd64"
      ∨ getArchitecture pa oa = cs "386")
    ∧ ((ciEq (pa.getD []) (cs "ARM64") = false ∧ ciEq oa (cs "X64") = false
        ∧ ciEq oa (cs "X86") = false ∧ ciEq oa (cs "Arm64") = false) →
        getArchitecture pa oa = cs "amd64")
    ∧ (∀ env : Env, env.procArch = pa → env.osArch = oa →
        ((installMsgvault env).1 = .fatal .unsupportedArch ↔
          getArchitecture pa oa = cs "386")) := by
  refine ⟨getArchitecture_mem pa oa, ?_, ?_⟩
  · rintro ⟨h1, h2, h3, h4⟩
    simp [getArchitecture, h1, h2, h3, h4]
  · intro env hpa hoa
    by_cases h386 : getArchitecture pa oa = cs "386"
    · have hc : ciEq (cs "386") (cs "386") = true := by decide
      simp only [installMsgvault, hpa, hoa, h386, hc]
      simp [h386]
    · have hci : ciEq (getArchitecture pa oa) (cs "386") = false := by
        rcases getArchitecture_mem pa oa with h | h | h
        · rw [h]; decide
        · rw [h]; decide
        · exact absurd h h386
      simp only [installMsgvault, hpa, hoa, hci, Bool.false_eq_true,
        if_false]
      split
      · simp [h386]
      · constructor
        · intro hc
          exact absurd hc (tryBody_no_archFail _ _ _ _)
        · intro hc
          exact absurd hc h386

/-- C10 witness: an architecture name outside the enumerated cases falls
through to 'amd64'. -/
theorem getArchitecture_total_witness :
    getArchitecture (some (cs "MIPS64")) (cs "Wasm") = cs "amd64" :=
  (getArchitecture_total (some (cs "MIPS64")) (cs "Wasm")).2.1
    ⟨by decide, by decide, by decide, by decide⟩
